import Mathlib

/-!
Verification development for the multi-provider AI tag-suggestion core.

The TypeScript sources are shallowly embedded here:
* strings are `String` (lists of characters); the JavaScript string
  operations used by the code (`toLowerCase`, `includes`, `split`,
  `startsWith`, `substring`, `trim`, regexp tests on ASCII classes) are
  modelled by executable functions on `List Char`;
* numbers used for relevance scores are modelled by `ℚ` (the code only
  adds and compares small decimal constants);
* an asynchronous call that can reject is modelled by `Except String α`
  (the `String` is the error message); a function containing
  `try`/`catch` is total and is given a plain result type when every
  exception is caught;
* the behaviour of a remote API during one invocation is passed in as an
  explicit environment value (the code under test never inspects the
  network itself, only the resolved/rejected outcome).
-/

/-! ## JavaScript string primitives -/

/-- ASCII lower-casing, as JavaScript `toLowerCase` acts on the ASCII
range (the only range exercised by the embedded code paths). -/
def lowerStr (s : List Char) : List Char :=
  s.map Char.toLower

/-- `isPrefixL pre s` is JavaScript `s.startsWith(pre)`. -/
def isPrefixL : List Char → List Char → Bool
  | [], _ => true
  | _ :: _, [] => false
  | a :: as, b :: bs => a = b && isPrefixL as bs

/-- `isInfixL sub s` is JavaScript `s.includes(sub)`. -/
def isInfixL (sub : List Char) : List Char → Bool
  | [] => sub.isEmpty
  | c :: cs => isPrefixL sub (c :: cs) || isInfixL sub cs

/-- Auxiliary accumulator for `splitOnChar`. -/
def splitOnCharAux (sep : Char) : List Char → List Char → List (List Char)
  | [], acc => [acc.reverse]
  | c :: cs, acc =>
    if c = sep then acc.reverse :: splitOnCharAux sep cs []
    else splitOnCharAux sep cs (c :: acc)

/-- JavaScript `s.split(sep)` for a single separator character:
non-collapsing, so adjacent separators yield empty pieces and the result
is never empty. -/
def splitOnChar (sep : Char) (s : List Char) : List (List Char) :=
  splitOnCharAux sep s []

/-- Auxiliary accumulator for `charRuns`. -/
def charRunsAux (p : Char → Bool) : List Char → List Char → List (List Char)
  | [], acc => if acc.isEmpty then [] else [acc.reverse]
  | c :: cs, acc =>
    if p c then charRunsAux p cs (c :: acc)
    else if acc.isEmpty then charRunsAux p cs []
    else acc.reverse :: charRunsAux p cs []

/-- The maximal non-empty runs of characters satisfying `p`, in order.
`charRuns p s` agrees with JavaScript `s.split(regexp)+` splitting on
maximal runs of characters violating `p`, except that JavaScript keeps
empty pieces at the ends; every use below immediately filters the pieces
by a positive length bound, which makes the two readings coincide. -/
def charRuns (p : Char → Bool) (s : List Char) : List (List Char) :=
  charRunsAux p s []

/-- JavaScript word character class `\w` = `[A-Za-z0-9_]`. -/
def isWordChar (c : Char) : Bool :=
  c.isAlphanum || c = '_'

/-- Sentence separator class `[.!?]` used by the heuristic note split. -/
def sentenceSepChar (c : Char) : Bool :=
  c = '.' || c = '!' || c = '?'

/-- JavaScript `s.trim()` (ASCII whitespace). -/
def trimL (s : List Char) : List Char :=
  ((s.dropWhile Char.isWhitespace).reverse.dropWhile Char.isWhitespace).reverse

/-- JavaScript `s.trim()` on `String`. -/
def jsTrim (s : String) : String :=
  String.mk (trimL s.toList)

/-! ## HuggingFaceService: local relevance scoring
(`src/server/ai/huggingface.ts`) -/

/-- JavaScript `Math.min(a, b)`, written so that it evaluates by kernel
reduction on `ℚ`. -/
def ratMin (a b : ℚ) : ℚ :=
  if a ≤ b then a else b

/-- The fixed category → keyword table of
`HuggingFaceService.getContextMatches`. -/
def contextMappings (key : String) : List String :=
  if key = "food" then
    ["eat", "cook", "meal", "dinner", "lunch", "breakfast", "recipe", "ingredient"]
  else if key = "shopping" then
    ["buy", "purchase", "store", "market", "get", "need"]
  else if key = "work" then
    ["meeting", "project", "deadline", "office", "email", "task"]
  else if key = "health" then
    ["doctor", "medicine", "exercise", "gym", "hospital"]
  else if key = "travel" then
    ["trip", "vacation", "flight", "hotel", "visit"]
  else if key = "home" then
    ["house", "clean", "repair", "garden", "room"]
  else if key = "finance" then
    ["money", "pay", "bill", "bank", "budget", "cost"]
  else []

/-- `HuggingFaceService.getContextMatches(content, tag)`: number of
keywords of the table entry for the lowercased tag that occur in the
content.  Both arguments arrive already lowercased from the caller; the
code lowercases the tag once more, which is idempotent. -/
def getContextMatches (content tag : List Char) : Nat :=
  ((contextMappings (String.mk (lowerStr tag))).filter
    (fun k => isInfixL k.toList content)).length

/-- Score contributed by one `(contentWord, tagWord)` pair in the nested
loop of `calculateTagRelevance`: 0.6 for an exact match, otherwise 0.3
when either word starts with the first three characters of the other. -/
def pairScore (cw tw : List Char) : ℚ :=
  if cw = tw then 0.6
  else if isPrefixL (tw.take 3) cw || isPrefixL (cw.take 3) tw then 0.3
  else 0

/-- `s.split(/\W+/).filter(word => word.length > 2)`: the word-character
runs of `s` longer than two characters. -/
def wordTokens (s : List Char) : List (List Char) :=
  (charRuns isWordChar s).filter (fun w => w.length > 2)

/-- `HuggingFaceService.calculateTagRelevance(content, tag)`. -/
def calculateTagRelevance (content tag : String) : ℚ :=
  let contentLower := lowerStr content.toList
  let tagLower := lowerStr tag.toList
  -- direct keyword match: contentLower.includes(tagLower)
  let s1 : ℚ := if isInfixL tagLower contentLower then 0.8 else 0
  -- partial keyword match:
  -- tagLower.includes(contentLower.split(' ')[0]) ||
  -- contentLower.split(' ').some(word => word.includes(tagLower))
  let spaceWords := splitOnChar ' ' contentLower
  let firstWord := spaceWords.headD []
  let s2 : ℚ :=
    if isInfixL firstWord tagLower ||
        spaceWords.any (fun w => isInfixL tagLower w) then 0.4 else 0
  -- semantic word matching over tokens longer than 2 characters
  let contentWords := wordTokens contentLower
  let tagWords := wordTokens tagLower
  let s3 : ℚ :=
    (contentWords.map (fun cw => (tagWords.map (fun tw => pairScore cw tw)).sum)).sum
  -- context matching: contextMatches * 0.4
  let s4 : ℚ := (getContextMatches contentLower tagLower : ℚ) * 0.4
  ratMin (s1 + s2 + s3 + s4) 1

/-- `HuggingFaceService.fallbackKeywordMatching(itemContent, availableTags)`:
keep the tags whose lowercase form occurs in the content, or which contain
the content's first word, or whose relevance score exceeds 0.3; then
`slice(0, 3)`. -/
def fallbackKeywordMatching (itemContent : String) (availableTags : List String) : List String :=
  let content := lowerStr itemContent.toList
  let matched := availableTags.filter (fun tag =>
    let tagLower := lowerStr tag.toList
    isInfixL tagLower content ||
    isInfixL ((splitOnChar ' ' (lowerStr content)).headD []) tagLower ||
    decide (calculateTagRelevance itemContent tag > 0.3))
  matched.take 3

/-- The `tagScores` array built by
`HuggingFaceService.suggestTagsWithDistilBERT`: the per-tag remote
`textClassification` call is issued but its result is ignored — both the
success branch and its per-tag `catch` push `calculateTagRelevance`, so
the scores do not depend on the remote behaviour. -/
def hfTagScores (itemContent : String) (availableTags : List String) :
    List (String × ℚ) :=
  availableTags.map (fun tag => (tag, calculateTagRelevance itemContent tag))

/-- JavaScript `array.sort((a, b) => key(b) - key(a))`: a stable sort
into descending key order. -/
def sortByScoreDesc (key : α → ℚ) (l : List α) : List α :=
  List.insertionSort (fun a b => key b ≤ key a) l

/-- The `topTags` expression of
`HuggingFaceService.suggestTagsWithDistilBERT`: scores filtered at
`> 0.2`, sorted by descending score, `slice(0, 3)`, mapped to the tag
names. -/
def hfTopTags (itemContent : String) (availableTags : List String) : List String :=
  ((sortByScoreDesc Prod.snd
      ((hfTagScores itemContent availableTags).filter
        (fun r => decide (r.2 > 0.2)))).take 3).map Prod.fst

/-- `HuggingFaceService.suggestTagsWithDistilBERT(itemContent,
availableTags)`, the path taken under the default configuration
`HF_MODEL_CLASSIFICATION = 'distilbert-base-uncased'`.  With no API key
configured the initial guard throws and the surrounding `catch` falls
back to `fallbackKeywordMatching`; otherwise the locally-scored tags
(`hfTopTags`) are returned, with `fallbackKeywordMatching` used when
nothing survives the threshold. -/
def suggestTagsWithDistilBERT (keyConfigured : Bool) (itemContent : String)
    (availableTags : List String) : List String :=
  if keyConfigured then
    if (hfTopTags itemContent availableTags).length > 0 then
      hfTopTags itemContent availableTags
    else fallbackKeywordMatching itemContent availableTags
  else fallbackKeywordMatching itemContent availableTags

/-- `HuggingFaceService.suggestTags(itemContent, availableTags)` under
the default classification model (the DistilBERT branch).  The inner
function is total here, so the outer `catch` that would return `[]` is
never taken. -/
def hfSuggestTags (keyConfigured : Bool) (itemContent : String)
    (availableTags : List String) : List String :=
  suggestTagsWithDistilBERT keyConfigured itemContent availableTags

/-! ## HuggingFaceService: note parsing, connection test, generation -/

/-- The sentence list computed inside `HuggingFaceService.parseNote`:
split on runs of `[.!?]`, trim, keep fragments longer than 10 characters
that contain a letter. -/
def hfSentences (noteText : String) : List String :=
  ((((charRuns (fun c => ¬ sentenceSepChar c) noteText.toList).map trimL).map
      String.mk).filter (fun s => s.length > 10)).filter
    (fun s => s.toList.any Char.isAlpha)

/-- `HuggingFaceService.parseNote(noteText)`.  `extractEntitiesOk` is
whether the initial `extractEntities` call succeeds (it throws when the
API key is missing or the remote call fails); its successful result is
never used by the splitting heuristic.  On a throw the `catch` returns
the trimmed original text as a single item. -/
def hfParseNote (extractEntitiesOk : Bool) (noteText : String) : List String :=
  if extractEntitiesOk then
    let sentences := hfSentences noteText
    if sentences.length > 1 then sentences
    else [jsTrim noteText]
  else [jsTrim noteText]

/-- Provider-level connection status record
(`AIServiceStatus` without the unified layer's `provider` field). -/
structure AIServiceStatus where
  connected : Bool
  apiKeyConfigured : Bool
  error : Option String
  deriving DecidableEq, Repr

/-- `HuggingFaceService.testConnection()`.  `remote` is the outcome of
the probe `textClassification` call.  The second component records
whether that network call was issued at all.  The function never
throws: the `catch` converts a rejection into a status record. -/
def hfTestConnection (keyConfigured : Bool) (remote : Except String Unit) :
    AIServiceStatus × Bool :=
  if ¬ keyConfigured then
    ({ connected := false, apiKeyConfigured := false,
       error := some ("HUGGINGFACE_API_KEY not configured") }, false)
  else
    match remote with
    | .ok _ => ({ connected := true, apiKeyConfigured := true, error := none }, true)
    | .error e =>
      ({ connected := false, apiKeyConfigured := keyConfigured, error := some e }, true)

/-- `HuggingFaceService.generateText(prompt, maxLength)`.  `remote` is
the outcome of the `textGeneration` call, resolving to
`result.generated_text || ''`.  Every failure — missing key included —
is re-thrown by the `catch` with a `Text generation failed: ` prefix. -/
def hfGenerateText (keyConfigured : Bool) (remote : Except String String) :
    Except String String :=
  if ¬ keyConfigured then
    .error ("Text generation failed: HUGGINGFACE_API_KEY not configured")
  else
    match remote with
    | .ok generated => .ok generated
    | .error e => .error ("Text generation failed: " ++ e)

/-! ## GoogleAIService (`src/server/ai/google.ts`) -/

/-- `GoogleAIService.testConnection()`.  Identical shape to the
HuggingFace one; the probe is a small `generateContent` call.  The
missing-key guard also covers the null client, which is null exactly
when the key is missing. -/
def googleTestConnection (keyConfigured : Bool) (remote : Except String Unit) :
    AIServiceStatus × Bool :=
  if ¬ keyConfigured then
    ({ connected := false, apiKeyConfigured := false,
       error := some ("GOOGLE_API_KEY not configured") }, false)
  else
    match remote with
    | .ok _ => ({ connected := true, apiKeyConfigured := true, error := none }, true)
    | .error e =>
      ({ connected := false, apiKeyConfigured := keyConfigured, error := some e }, true)

/-- The response-parsing step of `GoogleAIService.suggestTags`: split the
model's reply on commas, trim, drop empties, keep only members of
`availableTags`, `slice(0, 3)`. -/
def googleParseTags (text : String) (availableTags : List String) : List String :=
  (((((splitOnChar ',' text.toList).map trimL).map String.mk).filter
      (fun tag => tag.length > 0)).filter
    (fun tag => availableTags.contains tag)).take 3

/-- `GoogleAIService.suggestTags(itemContent, availableTags)`.
`remoteText` is the text of the `generateContent` response.  A missing
key throws into the `catch`, and any failure yields `[]` — errors are
swallowed, not propagated.  `itemContent` only feeds the prompt. -/
def googleSuggestTags (keyConfigured : Bool) (remoteText : Except String String)
    (itemContent : String) (availableTags : List String) : List String :=
  if ¬ keyConfigured then []
  else
    match remoteText with
    | .ok text => googleParseTags text availableTags
    | .error _ => []

/-- `GoogleAIService.generateText(prompt, maxTokens)`: rethrows every
failure with a `Text generation failed: ` prefix, otherwise returns the
trimmed response text. -/
def googleGenerateText (keyConfigured : Bool) (remote : Except String String) :
    Except String String :=
  if ¬ keyConfigured then
    .error ("Text generation failed: GOOGLE_API_KEY not configured")
  else
    match remote with
    | .ok text => .ok (jsTrim text)
    | .error e => .error ("Text generation failed: " ++ e)

/-! ## OpenAIService (`src/server/ai/openai.ts`) -/

/-- One entry of the JSON array expected from the OpenAI classification
prompt. -/
structure OpenAIClassificationResult where
  label : String
  score : ℚ
  deriving DecidableEq, Repr

/-- The outcome of the OpenAI chat call inside `classifyText`, seen
through response extraction and JSON parsing:
`.error e` — the network call rejected with `e`;
`.ok none` — it resolved but `choices[0]?.message?.content` was absent;
`.ok (some none)` — content present but not valid JSON;
`.ok (some (some rs))` — content parsed as a result array `rs`
(entries whose `score` is not a number are modelled as absent, which
only strengthens the inner `typeof` filter). -/
def OpenAIChatOutcome : Type :=
  Except String (Option (Option (List OpenAIClassificationResult)))

/-- `OpenAIService.classifyText(text, candidateLabels)`: throws (with an
`OpenAI text classification failed: ` prefix) when the key is missing,
the call rejects, or no content comes back; returns `[]` when the JSON
parse fails; otherwise keeps the entries whose label is a candidate and
whose score is positive. -/
def oaiClassifyText (keyConfigured : Bool) (chat : OpenAIChatOutcome)
    (candidateLabels : List String) : Except String (List OpenAIClassificationResult) :=
  if ¬ keyConfigured then
    .error ("OpenAI text classification failed: OPENAI_API_KEY not configured")
  else
    match chat with
    | .error e => .error ("OpenAI text classification failed: " ++ e)
    | .ok none => .error ("OpenAI text classification failed: No response from OpenAI")
    | .ok (some none) => .ok []
    | .ok (some (some results)) =>
      .ok (results.filter
        (fun r => candidateLabels.contains r.label && decide (r.score > 0)))

/-- `OpenAIService.suggestTags(itemContent, availableTags)`: the
classification results filtered at `> 0.1`, sorted by descending score,
cut to three labels; every thrown error is swallowed into `[]`. -/
def oaiSuggestTags (keyConfigured : Bool) (chat : OpenAIChatOutcome)
    (itemContent : String) (availableTags : List String) : List String :=
  match oaiClassifyText keyConfigured chat availableTags with
  | .error _ => []
  | .ok classification =>
    ((sortByScoreDesc OpenAIClassificationResult.score
        (classification.filter (fun r => decide (r.score > 0.1)))).take 3).map
      OpenAIClassificationResult.label

/-- `OpenAIService.testConnection()`: same never-throwing shape as the
other two providers. -/
def oaiTestConnection (keyConfigured : Bool) (remote : Except String Unit) :
    AIServiceStatus × Bool :=
  if ¬ keyConfigured then
    ({ connected := false, apiKeyConfigured := false,
       error := some ("OPENAI_API_KEY not configured") }, false)
  else
    match remote with
    | .ok _ => ({ connected := true, apiKeyConfigured := true, error := none }, true)
    | .error e =>
      ({ connected := false, apiKeyConfigured := keyConfigured, error := some e }, true)

/-! ## UnifiedAIService (`src/server/ai/index.ts`)

The dispatcher selects a provider by string comparison: `'openai'`,
then `'google'`, and anything else falls to the HuggingFace branch.
The behaviour of each concrete provider during the dispatched call is
supplied as an environment of resolved/rejected outcomes; the unified
layer sees each call only as a promise that resolves or rejects. -/

/-- One provider's behaviour for a single unified-service invocation. -/
structure ProviderBehavior where
  testConnection : Except String AIServiceStatus
  suggestTags : Except String (List String)
  parseNote : Except String (List String)
  generateText : Except String String

/-- The three registered providers' behaviours. -/
structure UnifiedEnv where
  huggingface : ProviderBehavior
  openai : ProviderBehavior
  google : ProviderBehavior

/-- The status record produced by the unified service: the provider
status extended with the provider name. -/
structure UnifiedAIServiceStatus where
  connected : Bool
  apiKeyConfigured : Bool
  provider : String
  error : Option String
  deriving DecidableEq, Repr

/-- `UnifiedAIService.testConnection()` with current provider
`provider`.  The `if`/`else if`/`else` chain picks the branch; on
resolution the provider name is the branch's literal, on rejection the
`catch` builds a failure record naming the raw current provider. -/
def unifiedTestConnection (env : UnifiedEnv) (provider : String) :
    UnifiedAIServiceStatus :=
  let attempt :=
    if provider = "openai" then (env.openai.testConnection, "openai")
    else if provider = "google" then (env.google.testConnection, "google")
    else (env.huggingface.testConnection, "huggingface")
  match attempt.1 with
  | .ok r =>
    { connected := r.connected, apiKeyConfigured := r.apiKeyConfigured,
      provider := attempt.2, error := r.error }
  | .error e =>
    { connected := false, apiKeyConfigured := false,
      provider := provider, error := some e }

/-- `UnifiedAIService.suggestTags(itemContent, availableTags)` with
current provider `provider`.  The first component is the returned tag
list (the `catch` returns `[]`); the second lists the providers whose
`suggestTags` was invoked, in order — the source dispatches exactly one
call and has no fallback hop. -/
def unifiedSuggestTags (env : UnifiedEnv) (provider : String) :
    List String × List String :=
  let attempt :=
    if provider = "openai" then (env.openai.suggestTags, ["openai"])
    else if provider = "google" then (env.google.suggestTags, ["google"])
    else (env.huggingface.suggestTags, ["huggingface"])
  match attempt.1 with
  | .ok tags => (tags, attempt.2)
  | .error _ => ([], attempt.2)

/-- `UnifiedAIService.parseNote(noteText)` with current provider
`provider`: dispatch as above; the `catch` returns the trimmed note as a
single item. -/
def unifiedParseNote (env : UnifiedEnv) (provider : String) (noteText : String) :
    List String :=
  let attempt :=
    if provider = "openai" then env.openai.parseNote
    else if provider = "google" then env.google.parseNote
    else env.huggingface.parseNote
  match attempt with
  | .ok items => items
  | .error _ => [jsTrim noteText]

/-- `UnifiedAIService.generateText(prompt, maxLength)` with current
provider `provider`.  The result type records what the async function
does for its caller: the `catch` turns every provider failure into a
resolution with the empty string, so the function always resolves. -/
def unifiedGenerateText (env : UnifiedEnv) (provider : String) :
    Except String String :=
  let attempt :=
    if provider = "openai" then env.openai.generateText
    else if provider = "google" then env.google.generateText
    else env.huggingface.generateText
  match attempt with
  | .ok s => .ok s
  | .error _ => .ok ("")

/-- Result record of `UnifiedAIService.suggestTagsWithProvider`. -/
structure SuggestTagsWithProviderResult where
  tags : List String
  provider : String
  error : Option String
  deriving DecidableEq, Repr

/-- `UnifiedAIService.suggestTagsWithProvider(itemContent,
availableTags, provider)`: same dispatch, but failures are captured in
the result record instead of an empty-handed return — the function
itself never rejects. -/
def unifiedSuggestTagsWithProvider (env : UnifiedEnv) (provider : String) :
    SuggestTagsWithProviderResult :=
  let attempt :=
    if provider = "openai" then env.openai.suggestTags
    else if provider = "google" then env.google.suggestTags
    else env.huggingface.suggestTags
  match attempt with
  | .ok tags => { tags := tags, provider := provider, error := none }
  | .error e => { tags := [], provider := provider, error := some e }

/-! ## UnifiedAIService (`src/server/ai/aiService.ts`)

The two-provider unified service with connection-guarded fallback.
Its `suggestTags` catch recurses into itself with the other provider
name, so the embedding carries a fuel parameter: `none` means the
recursion did not terminate within the given fuel. -/

/-- The `AIProvider` union type of `aiService.ts`. -/
inductive AIProvider where
  | huggingface
  | google
  deriving DecidableEq, Repr

/-- One provider's behaviour for the `aiService.ts` dispatcher: the
`connected` flag its `testConnection` resolves with (that call never
rejects), and the outcome of its `suggestTags` call. -/
structure AiSvcProviderBehavior where
  connected : Bool
  suggestTags : Except String (List String)

/-- Behaviour of both providers for one `aiService.ts` invocation. -/
structure AiSvcEnv where
  huggingface : AiSvcProviderBehavior
  google : AiSvcProviderBehavior

/-- The `try` block of `aiService.ts`'s `suggestTags`: the Google branch
is only entered when Google's `testConnection` reports `connected`, and
otherwise falls through to the HuggingFace branch, which returns `[]`
when HuggingFace is not connected either. -/
def aiSvcSuggestTagsTry (env : AiSvcEnv) (useProvider : AIProvider) :
    Except String (List String) :=
  if useProvider = AIProvider.google ∧ env.google.connected then
    env.google.suggestTags
  else if env.huggingface.connected then
    env.huggingface.suggestTags
  else
    .ok []

/-- `UnifiedAIService.suggestTags(itemContent, availableTags, provider?)`
of `aiService.ts`.  When the `try` block throws, the `catch` recurses
with the other provider as the explicit argument; the inner
`catch (fallbackError)` is unreachable in this model because the
function itself never rejects.  `none` means the recursion exhausted its
fuel — with both providers connected and both `suggestTags` rejecting,
the source recurses forever. -/
def aiSvcSuggestTags (env : AiSvcEnv) (dflt : AIProvider) :
    Nat → Option AIProvider → Option (List String)
  | 0, _ => none
  | Nat.succ fuel, provider =>
    let useProvider := provider.getD dflt
    match aiSvcSuggestTagsTry env useProvider with
    | .ok tags => some tags
    | .error _ =>
      let fallbackProvider :=
        if useProvider = AIProvider.google then AIProvider.huggingface
        else AIProvider.google
      aiSvcSuggestTags env dflt fuel (some fallbackProvider)

/-! ## `compareProviders` (`src/dashboard/DashboardPage.tsx`)

`compareProviders` fans out one `suggestTagsWithProvider` call per
provider and joins them with `Promise.allSettled`; each settled outcome
is reported as its own entry of the result. -/

/-- One entry of the `compareProviders` result. -/
structure CompareEntry where
  status : String
  tags : List String
  error : Option String
  deriving DecidableEq, Repr

/-- How `compareProviders` renders one settled call:
`status` is the `allSettled` status string, `tags` are the fulfilled
value's tags (or `[]`), `error` is the fulfilled value's `error` field
(or the rejection reason's message). -/
def compareEntry (result : Except String SuggestTagsWithProviderResult) :
    CompareEntry :=
  { status := match result with | .ok _ => "fulfilled" | .error _ => "rejected"
    tags := match result with | .ok v => v.tags | .error _ => []
    error := match result with | .ok v => v.error | .error e => some e }

/-- `compareProviders(args, context)`: the `(huggingface, openai,
google)` entries built from the three settled `suggestTagsWithProvider`
outcomes.  `Promise.allSettled` never short-circuits, so every call's
outcome appears, and each entry is computed from its own call alone. -/
def compareProviders
    (hfResult openaiResult googleResult : Except String SuggestTagsWithProviderResult) :
    CompareEntry × CompareEntry × CompareEntry :=
  (compareEntry hfResult, compareEntry openaiResult, compareEntry googleResult)

/-! ## Helper lemmas -/

/-- `ratMin` is commutative. -/
theorem ratMin_comm (a b : ℚ) : ratMin a b = ratMin b a := by
  unfold ratMin
  split_ifs with h1 h2 h3
  · exact le_antisymm h1 h2
  · rfl
  · rfl
  · exact absurd (le_of_not_le h1) h3

/-- Every fragment produced by `hfSentences` passed the length and
letter filters. -/
theorem hfSentences_filtered (noteText : String) :
    ∀ s ∈ hfSentences noteText, 10 < s.length ∧ s.toList.any Char.isAlpha = true := by
  intro s hs
  unfold hfSentences at hs
  have h2 := List.mem_filter.mp hs
  have h1 := List.mem_filter.mp h2.1
  refine ⟨?_, h2.2⟩
  have := h1.2
  simpa using this

/-! ## Claim theorems -/

/-- C5: for every provider whose API credential is absent
(`apiKeyConfigured = false`), `testConnection` returns
`{connected: false, apiKeyConfigured: false}` with an error message,
issues no network call (second component `false`), and never throws
(each `testConnection` is a total function into a status record). -/
theorem testConnection_unconfigured :
    ∀ remote : Except String Unit,
      hfTestConnection false remote =
        ({ connected := false, apiKeyConfigured := false,
           error := some ("HUGGINGFACE_API_KEY not configured") }, false) ∧
      googleTestConnection false remote =
        ({ connected := false, apiKeyConfigured := false,
           error := some ("GOOGLE_API_KEY not configured") }, false) ∧
      oaiTestConnection false remote =
        ({ connected := false, apiKeyConfigured := false,
           error := some ("OPENAI_API_KEY not configured") }, false) := by
  intro remote
  refine ⟨?_, ?_, ?_⟩ <;> rfl

/-- C8: `parseNote("ok")` on the HuggingFace provider returns exactly
`["ok"]`, whether the entity-extraction call succeeds or throws ("ok"
yields a single two-character fragment, which fails the `> 10` filter,
so the whole trimmed input is returned). -/
theorem parseNote_ok_passthrough :
    hfParseNote true ("ok") = ["ok"] ∧ hfParseNote false ("ok") = ["ok"] := by
  constructor <;> rfl

/-- C10: the HuggingFace `parseNote` returns either at least two
fragments, each of which passed the `> 10`-length and contains-a-letter
filters, or exactly the one-element list holding the whole trimmed
input; a lone surviving fragment is never returned by itself. -/
theorem parseNote_split_or_whole (b : Bool) (noteText : String) :
    (hfParseNote b noteText = hfSentences noteText ∧
      2 ≤ (hfSentences noteText).length ∧
      ∀ s ∈ hfSentences noteText, 10 < s.length ∧ s.toList.any Char.isAlpha = true) ∨
    hfParseNote b noteText = [jsTrim noteText] := by
  cases b with
  | false => exact Or.inr rfl
  | true =>
    by_cases h : (hfSentences noteText).length > 1
    · refine Or.inl ⟨?_, by omega, hfSentences_filtered noteText⟩
      simp only [hfParseNote, if_pos rfl]
      simp [if_pos h]
    · refine Or.inr ?_
      simp only [hfParseNote, if_pos rfl]
      simp [if_neg h]

unseal Rat.add Rat.mul Rat.ofScientific Rat.inv Rat.sub in
/-- C6 counterexample: on the spec's scenario input, the HuggingFace
`parseNote` returns two items, not three — the fragment `"Buy milk"` has
only 8 characters and is dropped by the `> 10` length filter; and when
the entity-extraction call throws, the result is the single whole
input. -/
theorem parseNote_scenario_counterexample :
    hfParseNote true ("Buy milk. Call dentist tomorrow. Finish report by Friday.") =
      ["Call dentist tomorrow", "Finish report by Friday"] ∧
    (hfParseNote true
      ("Buy milk. Call dentist tomorrow. Finish report by Friday.")).length ≠ 3 := by
  exact ⟨by decide, by decide⟩

unseal Rat.add Rat.mul Rat.ofScientific Rat.inv Rat.sub in
/-- C6 amended: on input `"Buy milk. Call dentist tomorrow. Finish
report by Friday."`, when entity extraction succeeds the HuggingFace
`parseNote` returns exactly 2 items (`"Buy milk"` fails the `> 10`
filter), each longer than 10 characters and containing a letter; when
entity extraction throws it returns the whole trimmed input as one
item. -/
theorem parseNote_scenario_amended :
    hfParseNote true ("Buy milk. Call dentist tomorrow. Finish report by Friday.") =
      ["Call dentist tomorrow", "Finish report by Friday"] ∧
    (hfParseNote true
        ("Buy milk. Call dentist tomorrow. Finish report by Friday.")).all
      (fun s => decide (10 < s.length) && s.toList.any Char.isAlpha) = true ∧
    hfParseNote false ("Buy milk. Call dentist tomorrow. Finish report by Friday.") =
      ["Buy milk. Call dentist tomorrow. Finish report by Friday."] := by
  exact ⟨by decide, by decide, by decide⟩

/-- C4: `compareProviders` yields one entry per provider even when one
of the `suggestTagsWithProvider` calls rejects: the rejected call's
entry is `status: 'rejected'` carrying the rejection message, the other
entries are `status: 'fulfilled'` with their own tags, and they are
exactly what they would have been had the rejected call succeeded with
any value instead. -/
theorem compareProviders_isolates_failures
    (v w : SuggestTagsWithProviderResult) (e : String) :
    compareProviders (.error e) (.ok v) (.ok w) =
      ({ status := "rejected", tags := [], error := some e },
       { status := "fulfilled", tags := v.tags, error := v.error },
       { status := "fulfilled", tags := w.tags, error := w.error }) ∧
    compareProviders (.ok v) (.error e) (.ok w) =
      ({ status := "fulfilled", tags := v.tags, error := v.error },
       { status := "rejected", tags := [], error := some e },
       { status := "fulfilled", tags := w.tags, error := w.error }) ∧
    compareProviders (.ok v) (.ok w) (.error e) =
      ({ status := "fulfilled", tags := v.tags, error := v.error },
       { status := "fulfilled", tags := w.tags, error := w.error },
       { status := "rejected", tags := [], error := some e }) ∧
    ∀ u : Except String SuggestTagsWithProviderResult,
      (compareProviders (.ok v) u (.ok w)).1 =
        (compareProviders (.ok v) (.error e) (.ok w)).1 ∧
      (compareProviders (.ok v) u (.ok w)).2.2 =
        (compareProviders (.ok v) (.error e) (.ok w)).2.2 := by
  exact ⟨rfl, rfl, rfl, fun u => ⟨rfl, rfl⟩⟩

/-- A provider behaviour whose every call resolves; used as the benign
filler in concrete environments. -/
def okBehavior : ProviderBehavior :=
  { testConnection := .ok { connected := true, apiKeyConfigured := true, error := none }
    suggestTags := .ok []
    parseNote := .ok []
    generateText := .ok ("text") }

/-- C9: every current-provider string other than `'openai'` and
`'google'` is dispatched to the HuggingFace provider by all four
unified operations — an unrecognised name is silently treated as
HuggingFace rather than rejected.  (For `testConnection` the dispatched
call is HuggingFace's; only the `provider` field of the `catch` branch
echoes the raw string.) -/
theorem unified_dispatch_default_hf (env : UnifiedEnv) (p : String)
    (h1 : p ≠ "openai") (h2 : p ≠ "google") :
    unifiedSuggestTags env p = unifiedSuggestTags env ("huggingface") ∧
    (∀ noteText, unifiedParseNote env p noteText =
      unifiedParseNote env ("huggingface") noteText) ∧
    unifiedGenerateText env p = unifiedGenerateText env ("huggingface") ∧
    (∀ r, env.huggingface.testConnection = .ok r →
      unifiedTestConnection env p =
        { connected := r.connected, apiKeyConfigured := r.apiKeyConfigured,
          provider := "huggingface", error := r.error }) ∧
    (∀ e, env.huggingface.testConnection = .error e →
      unifiedTestConnection env p =
        { connected := false, apiKeyConfigured := false,
          provider := p, error := some e }) := by
  refine ⟨?_, ?_, ?_, ?_, ?_⟩
  · simp [unifiedSuggestTags, h1, h2]
  · intro noteText
    simp [unifiedParseNote, h1, h2]
  · simp [unifiedGenerateText, h1, h2]
  · intro r hr
    simp [unifiedTestConnection, h1, h2, hr]
  · intro e he
    simp [unifiedTestConnection, h1, h2, he]

/-- C9 witness: the theorem applied at the unrecognised provider name
`"claude"` over a concrete environment. -/
theorem unified_dispatch_default_hf_witness :
    unifiedSuggestTags
        { huggingface := okBehavior, openai := okBehavior, google := okBehavior }
        "claude" =
      unifiedSuggestTags
        { huggingface := okBehavior, openai := okBehavior, google := okBehavior }
        "huggingface" ∧
    unifiedTestConnection
        { huggingface := okBehavior, openai := okBehavior, google := okBehavior }
        "claude" =
      { connected := true, apiKeyConfigured := true,
        provider := "huggingface", error := none } := by
  refine ⟨(unified_dispatch_default_hf _ ("claude") (by decide) (by decide)).1, ?_⟩
  exact (unified_dispatch_default_hf
    { huggingface := okBehavior, openai := okBehavior, google := okBehavior }
    "claude" (by decide) (by decide)).2.2.2.1
    { connected := true, apiKeyConfigured := true, error := none } rfl

/-- C2 counterexample: with the Google provider selected and its
generation call rejecting, the unified `generateText` resolves with the
empty string instead of propagating the error — it does not throw. -/
theorem unifiedGenerateText_swallows_counterexample :
    unifiedGenerateText
        { huggingface := okBehavior, openai := okBehavior,
          google := { okBehavior with generateText := .error ("boom") } }
        "google" = .ok ("") ∧
    ({ huggingface := okBehavior, openai := okBehavior,
       google := { okBehavior with generateText := .error ("boom") } } :
        UnifiedEnv).google.generateText = .error ("boom") := by
  exact ⟨rfl, rfl⟩

/-- C2 amended: when the dispatched provider's generation call fails,
the provider-level `generateText` propagates an error (HuggingFace and
Google rethrow with a `Text generation failed: ` prefix), but the
unified service's `generateText` catches it and resolves with the empty
string. -/
theorem generateText_error_handling :
    (∀ (env : UnifiedEnv) (p e : String),
      (if p = "openai" then env.openai.generateText
       else if p = "google" then env.google.generateText
       else env.huggingface.generateText) = .error e →
      unifiedGenerateText env p = .ok ("")) ∧
    (∀ e : String,
      hfGenerateText true (.error e) = .error ("Text generation failed: " ++ e) ∧
      googleGenerateText true (.error e) = .error ("Text generation failed: " ++ e)) := by
  constructor
  · intro env p e h
    simp only [unifiedGenerateText]
    rw [h]
  · intro e
    exact ⟨rfl, rfl⟩

/-- C2 witness: the amended theorem applied to a concrete environment
whose Google generation call rejects with `"boom"`. -/
theorem generateText_error_handling_witness :
    unifiedGenerateText
        { huggingface := okBehavior, openai := okBehavior,
          google := { okBehavior with generateText := .error ("boom") } }
        "google" = .ok ("") ∧
    hfGenerateText true (.error ("boom")) =
      .error ("Text generation failed: boom") := by
  constructor
  · exact generateText_error_handling.1
      { huggingface := okBehavior, openai := okBehavior,
        google := { okBehavior with generateText := .error ("boom") } }
      "google" "boom" rfl
  · exact (generateText_error_handling.2 ("boom")).1

/-- C3 counterexample: in the `index.ts` unified service, with the
selected Google provider's `suggestTags` rejecting and HuggingFace
healthy (it would return `["fallbackTag"]`), the service returns the
empty tag list and its call trace shows only `"google"` — no fallback
attempt is made and the healthy provider's result is not returned. -/
theorem unifiedSuggestTags_no_fallback_counterexample :
    unifiedSuggestTags
        { huggingface := { okBehavior with suggestTags := .ok ["fallbackTag"] },
          openai := okBehavior,
          google := { okBehavior with suggestTags := .error ("google down") } }
        "google" = ([], ["google"]) ∧
    ({ huggingface := { okBehavior with suggestTags := .ok ["fallbackTag"] },
       openai := okBehavior,
       google := { okBehavior with suggestTags := .error ("google down") } } :
        UnifiedEnv).huggingface.suggestTags = .ok ["fallbackTag"] := by
  exact ⟨rfl, rfl⟩

/-- C3 amended: the `index.ts` unified `suggestTags` makes no fallback
attempt — when the dispatched provider's call rejects it returns `[]`
at once, invoking only that provider.  The `aiService.ts` unified
`suggestTags` does retry once: with both providers connected, the
default Google call rejecting and HuggingFace succeeding, it returns
HuggingFace's tags; but when both providers' calls reject it keeps
hopping back and forth (including back to the original provider) and
never terminates — no recursion fuel suffices. -/
theorem suggestTags_fallback_behavior :
    (∀ (env : UnifiedEnv) (e : String), env.google.suggestTags = .error e →
      unifiedSuggestTags env ("google") = ([], ["google"])) ∧
    (∀ (env : AiSvcEnv) (e : String) (tags : List String) (fuel : Nat),
      env.google.connected = true → env.huggingface.connected = true →
      env.google.suggestTags = .error e →
      env.huggingface.suggestTags = .ok tags →
      aiSvcSuggestTags env AIProvider.google (fuel + 2) none = some tags) ∧
    (∀ (env : AiSvcEnv) (eg eh : String),
      env.google.connected = true → env.huggingface.connected = true →
      env.google.suggestTags = .error eg →
      env.huggingface.suggestTags = .error eh →
      ∀ (fuel : Nat) (p : Option AIProvider),
        aiSvcSuggestTags env AIProvider.google fuel p = none) := by
  refine ⟨?_, ?_, ?_⟩
  · intro env e h
    simp only [unifiedSuggestTags]
    simp [h]
  · intro env e tags fuel hgc hhc hg hh
    simp only [aiSvcSuggestTags, aiSvcSuggestTagsTry, Option.getD]
    simp [hgc, hg, hhc, hh]
  · intro env eg eh hgc hhc hg hh fuel
    induction fuel with
    | zero => intro p; rfl
    | succ n ih =>
      intro p
      simp only [aiSvcSuggestTags]
      rcases p with _ | prov
      · simp only [Option.getD]
        simp [aiSvcSuggestTagsTry, hgc, hg, hhc, hh, ih]
      · cases prov
        · simp only [Option.getD]
          simp [aiSvcSuggestTagsTry, hgc, hg, hhc, hh, ih]
        · simp only [Option.getD]
          simp [aiSvcSuggestTagsTry, hgc, hg, hhc, hh, ih]

/-- C3 witness: the amended theorem applied to concrete environments —
a rejecting Google with healthy HuggingFace for the first two parts,
and both providers rejecting (fuel 5) for the divergence part. -/
theorem suggestTags_fallback_behavior_witness :
    unifiedSuggestTags
        { huggingface := okBehavior, openai := okBehavior,
          google := { okBehavior with suggestTags := .error ("g down") } }
        "google" = ([], ["google"]) ∧
    aiSvcSuggestTags
        { huggingface := { connected := true, suggestTags := .ok ["b"] },
          google := { connected := true, suggestTags := .error ("g down") } }
        AIProvider.google 2 none = some ["b"] ∧
    aiSvcSuggestTags
        { huggingface := { connected := true, suggestTags := .error ("h down") },
          google := { connected := true, suggestTags := .error ("g down") } }
        AIProvider.google 5 none = none := by
  refine ⟨?_, ?_, ?_⟩
  · exact suggestTags_fallback_behavior.1
      { huggingface := okBehavior, openai := okBehavior,
        google := { okBehavior with suggestTags := .error ("g down") } }
      "g down" rfl
  · exact suggestTags_fallback_behavior.2.1
      { huggingface := { connected := true, suggestTags := .ok ["b"] },
        google := { connected := true, suggestTags := .error ("g down") } }
      "g down" ["b"] 0 rfl rfl rfl rfl
  · exact suggestTags_fallback_behavior.2.2
      { huggingface := { connected := true, suggestTags := .error ("h down") },
        google := { connected := true, suggestTags := .error ("g down") } }
      "g down" "h down" rfl rfl rfl rfl 5 none

/-- Every pair in `hfTagScores` carries the relevance score of its own
tag. -/
theorem hfTagScores_snd (content : String) (tags : List String) :
    ∀ p ∈ hfTagScores content tags, p.2 = calculateTagRelevance content p.1 := by
  intro p hp
  simp only [hfTagScores, List.mem_map] at hp
  rcases hp with ⟨t, _, rfl⟩
  rfl

/-- Every pair surviving the `hfTopTags` pipeline up to the `take` comes
from `hfTagScores`. -/
theorem hfTopTags_pairs_mem (content : String) (tags : List String) :
    ∀ p ∈ (sortByScoreDesc Prod.snd
        ((hfTagScores content tags).filter
          (fun r => decide (r.2 > 0.2)))).take 3,
      p ∈ hfTagScores content tags := by
  intro p hp
  have h1 := (List.take_sublist 3 _).subset hp
  simp only [sortByScoreDesc] at h1
  have h2 := (List.perm_insertionSort _ _).subset h1
  exact (List.filter_sublist _).subset h2

/-- `hfTopTags` keeps at most three tags, all drawn from the input
vocabulary, without introducing duplicates. -/
theorem hfTopTags_spec (content : String) (tags : List String) :
    (hfTopTags content tags).length ≤ 3 ∧
    (∀ x ∈ hfTopTags content tags, x ∈ tags) ∧
    (tags.Nodup → (hfTopTags content tags).Nodup) := by
  refine ⟨?_, ?_, ?_⟩
  · simp [hfTopTags, List.length_take]
  · intro x hx
    simp only [hfTopTags, List.mem_map] at hx
    rcases hx with ⟨p, hp, rfl⟩
    have h3 := hfTopTags_pairs_mem content tags p hp
    simp only [hfTagScores, List.mem_map] at h3
    rcases h3 with ⟨t, ht, rfl⟩
    exact ht
  · intro hnd
    have hpairs : (hfTagScores content tags).Nodup := by
      simp only [hfTagScores]
      exact hnd.map (fun a b hab => congrArg Prod.fst hab)
    have hfil : ((hfTagScores content tags).filter
        (fun r => decide (r.2 > 0.2))).Nodup :=
      (List.filter_sublist _).nodup hpairs
    have hsort : (sortByScoreDesc Prod.snd
        ((hfTagScores content tags).filter
          (fun r => decide (r.2 > 0.2)))).Nodup := by
      simp only [sortByScoreDesc]
      exact (List.perm_insertionSort _ _).symm.nodup hfil
    have htake := (List.take_sublist 3 _).nodup hsort
    refine List.Nodup.map_on ?_ htake
    intro p hp q hq hfst
    have hps := hfTagScores_snd content tags p (hfTopTags_pairs_mem content tags p hp)
    have hqs := hfTagScores_snd content tags q (hfTopTags_pairs_mem content tags q hq)
    have : p.2 = q.2 := by rw [hps, hqs, hfst]
    exact Prod.ext hfst this

/-- `fallbackKeywordMatching` keeps at most three tags, all drawn from
the input vocabulary, without introducing duplicates. -/
theorem fallbackKeywordMatching_spec (content : String) (tags : List String) :
    (fallbackKeywordMatching content tags).length ≤ 3 ∧
    (∀ x ∈ fallbackKeywordMatching content tags, x ∈ tags) ∧
    (tags.Nodup → (fallbackKeywordMatching content tags).Nodup) := by
  refine ⟨?_, ?_, ?_⟩
  · simp [fallbackKeywordMatching, List.length_take]
  · intro x hx
    simp only [fallbackKeywordMatching] at hx
    have h1 := (List.take_sublist 3 _).subset hx
    exact (List.filter_sublist _).subset h1
  · intro hnd
    simp only [fallbackKeywordMatching]
    exact (List.take_sublist 3 _).nodup ((List.filter_sublist _).nodup hnd)

/-- Entries accepted by `classifyText`'s filter carry labels from the
candidate list. -/
theorem oaiClassifyText_mem (key : Bool) (chat : OpenAIChatOutcome)
    (tags : List String) (classification : List OpenAIClassificationResult)
    (hcl : oaiClassifyText key chat tags = .ok classification) :
    ∀ r ∈ classification, r.label ∈ tags := by
  intro r hr
  cases key with
  | false => simp [oaiClassifyText] at hcl
  | true =>
    cases chat with
    | error e => simp [oaiClassifyText] at hcl
    | ok inner =>
      cases inner with
      | none => simp [oaiClassifyText] at hcl
      | some parsed =>
        cases parsed with
        | none =>
          simp [oaiClassifyText] at hcl
          subst hcl
          exact absurd hr (List.not_mem_nil r)
        | some results =>
          simp [oaiClassifyText] at hcl
          subst hcl
          have h5 := (List.mem_filter.mp hr).2
          simp only [Bool.and_eq_true, decide_eq_true_eq] at h5
          exact h5.1

unseal Rat.add Rat.mul Rat.ofScientific Rat.inv Rat.sub in
/-- C1 counterexample: the Google provider's `suggestTags` does not
deduplicate — with vocabulary `["a"]` and a model reply repeating the
tag, it returns `["a", "a"]`, which contains a duplicate. -/
theorem googleSuggestTags_dup_counterexample :
    googleSuggestTags true (.ok ("a, a")) "note text" ["a"] = ["a", "a"] ∧
    ¬ (googleSuggestTags true (.ok ("a, a")) "note text" ["a"]).Nodup := by
  exact ⟨by decide, by decide⟩

/-- C1 amended: on every provider, `suggestTags` returns at most three
tags, all drawn from the supplied vocabulary; on the HuggingFace
provider (default DistilBERT path) the result additionally contains no
duplicates when the vocabulary has none, but the Google and OpenAI
results may repeat a tag when the remote response does. -/
theorem suggestTags_bounded_subset :
    (∀ (key : Bool) (content : String) (tags : List String),
      (hfSuggestTags key content tags).length ≤ 3 ∧
      (∀ x ∈ hfSuggestTags key content tags, x ∈ tags) ∧
      (tags.Nodup → (hfSuggestTags key content tags).Nodup)) ∧
    (∀ (key : Bool) (remoteText : Except String String) (content : String)
        (tags : List String),
      (googleSuggestTags key remoteText content tags).length ≤ 3 ∧
      ∀ x ∈ googleSuggestTags key remoteText content tags, x ∈ tags) ∧
    (∀ (key : Bool) (chat : OpenAIChatOutcome) (content : String)
        (tags : List String),
      (oaiSuggestTags key chat content tags).length ≤ 3 ∧
      ∀ x ∈ oaiSuggestTags key chat content tags, x ∈ tags) := by
  refine ⟨?_, ?_, ?_⟩
  · intro key content tags
    cases key with
    | false =>
      have h : hfSuggestTags false content tags =
          fallbackKeywordMatching content tags := rfl
      rw [h]
      exact ⟨(fallbackKeywordMatching_spec content tags).1,
        (fallbackKeywordMatching_spec content tags).2.1,
        fun hnd => (fallbackKeywordMatching_spec content tags).2.2 hnd⟩
    | true =>
      by_cases htop : (hfTopTags content tags).length > 0
      · have h : hfSuggestTags true content tags = hfTopTags content tags := by
          simp [hfSuggestTags, suggestTagsWithDistilBERT, htop]
        rw [h]
        exact ⟨(hfTopTags_spec content tags).1, (hfTopTags_spec content tags).2.1,
          fun hnd => (hfTopTags_spec content tags).2.2 hnd⟩
      · have h : hfSuggestTags true content tags =
            fallbackKeywordMatching content tags := by
          simp [hfSuggestTags, suggestTagsWithDistilBERT, htop]
        rw [h]
        exact ⟨(fallbackKeywordMatching_spec content tags).1,
          (fallbackKeywordMatching_spec content tags).2.1,
          fun hnd => (fallbackKeywordMatching_spec content tags).2.2 hnd⟩
  · intro key remoteText content tags
    cases key with
    | false =>
      have h : googleSuggestTags false remoteText content tags = [] := rfl
      rw [h]
      exact ⟨by decide, fun x hx => absurd hx (List.not_mem_nil x)⟩
    | true =>
      cases remoteText with
      | error e =>
        have h : googleSuggestTags true (.error e) content tags = [] := rfl
        rw [h]
        exact ⟨by decide, fun x hx => absurd hx (List.not_mem_nil x)⟩
      | ok text =>
        have h : googleSuggestTags true (.ok text) content tags =
            googleParseTags text tags := rfl
        rw [h]
        refine ⟨?_, ?_⟩
        · simp [googleParseTags, List.length_take]
        · intro x hx
          simp only [googleParseTags] at hx
          have h1 := (List.take_sublist 3 _).subset hx
          have h2 := List.mem_filter.mp h1
          exact List.mem_of_elem_eq_true h2.2
  · intro key chat content tags
    cases hcl : oaiClassifyText key chat tags with
    | error e =>
      have h : oaiSuggestTags key chat content tags = [] := by
        simp [oaiSuggestTags, hcl]
      rw [h]
      exact ⟨by decide, fun x hx => absurd hx (List.not_mem_nil x)⟩
    | ok classification =>
      have h : oaiSuggestTags key chat content tags =
          ((sortByScoreDesc OpenAIClassificationResult.score
              (classification.filter (fun r => decide (r.score > 0.1)))).take 3).map
            OpenAIClassificationResult.label := by
        simp [oaiSuggestTags, hcl]
      rw [h]
      refine ⟨?_, ?_⟩
      · simp [List.length_take]
      · intro x hx
        simp only [List.mem_map] at hx
        rcases hx with ⟨r, hr, rfl⟩
        have h1 := (List.take_sublist 3 _).subset hr
        simp only [sortByScoreDesc] at h1
        have h2 := (List.perm_insertionSort _ _).subset h1
        have h3 := (List.filter_sublist _).subset h2
        exact oaiClassifyText_mem key chat tags classification hcl r h3

unseal Rat.add Rat.mul Rat.ofScientific Rat.inv Rat.sub in
/-- C1 witness: the amended theorem applied to concrete inputs on all
three providers, with the no-duplicates hypothesis discharged on the
concrete vocabulary. -/
theorem suggestTags_bounded_subset_witness :
    (hfSuggestTags true ("need to buy milk") ["shopping", "work"]).length ≤ 3 ∧
    (hfSuggestTags true ("need to buy milk") ["shopping", "work"]).Nodup ∧
    (∀ x ∈ hfSuggestTags true ("need to buy milk") ["shopping", "work"],
      x ∈ ["shopping", "work"]) ∧
    (googleSuggestTags true (.ok ("a")) "note" ["a"]).length ≤ 3 ∧
    (∀ x ∈ googleSuggestTags true (.ok ("a")) "note" ["a"], x ∈ ["a"]) ∧
    (oaiSuggestTags true (.ok (some (some [{ label := "a", score := 0.9 }])))
        "note" ["a"]).length ≤ 3 ∧
    (∀ x ∈ oaiSuggestTags true (.ok (some (some [{ label := "a", score := 0.9 }])))
        "note" ["a"], x ∈ ["a"]) := by
  refine ⟨(suggestTags_bounded_subset.1 true ("need to buy milk") ["shopping", "work"]).1,
    (suggestTags_bounded_subset.1 true ("need to buy milk") ["shopping", "work"]).2.2
      (by decide),
    (suggestTags_bounded_subset.1 true ("need to buy milk") ["shopping", "work"]).2.1,
    (suggestTags_bounded_subset.2.1 true (.ok ("a")) "note" ["a"]).1,
    (suggestTags_bounded_subset.2.1 true (.ok ("a")) "note" ["a"]).2,
    (suggestTags_bounded_subset.2.2 true
      (.ok (some (some [{ label := "a", score := 0.9 }]))) "note" ["a"]).1,
    (suggestTags_bounded_subset.2.2 true
      (.ok (some (some [{ label := "a", score := 0.9 }]))) "note" ["a"]).2⟩

/-! ## The specification's description of the relevance score (C7) -/

/-- From the spec's wording: number of exact token matches between note
tokens and tag tokens. -/
def exactTokenMatches (contentWords tagWords : List (List Char)) : ℕ :=
  (contentWords.map (fun cw => tagWords.countP (fun tw => decide (cw = tw)))).sum

/-- From the spec's wording: number of 3-character-prefix token matches
(non-exact pairs where either token starts with the first three
characters of the other). -/
def prefixTokenMatches (contentWords tagWords : List (List Char)) : ℕ :=
  (contentWords.map (fun cw => tagWords.countP
    (fun tw => !(decide (cw = tw)) &&
      (isPrefixL (tw.take 3) cw || isPrefixL (cw.take 3) tw)))).sum

/-- The claim's formula exactly as stated: `min(1.0, s)` where `s` sums
0.8 for a substring hit, 0.4 when the note's *first word* overlaps the
tag (one contains the other), 0.6 per exact and 0.3 per prefix token
match, and 0.4 per context-table keyword hit. -/
def claimedTagRelevance (content tag : String) : ℚ :=
  let contentLower := lowerStr content.toList
  let tagLower := lowerStr tag.toList
  let a : ℚ := if isInfixL tagLower contentLower then 0.8 else 0
  let firstWord := (splitOnChar ' ' contentLower).headD []
  let b : ℚ :=
    if isInfixL firstWord tagLower || isInfixL tagLower firstWord then 0.4 else 0
  let c : ℚ :=
    0.6 * (exactTokenMatches (wordTokens contentLower) (wordTokens tagLower) : ℚ) +
    0.3 * (prefixTokenMatches (wordTokens contentLower) (wordTokens tagLower) : ℚ)
  let d : ℚ := 0.4 * (getContextMatches contentLower tagLower : ℚ)
  ratMin 1 (a + b + c + d)

/-- The claim's formula with its 0.4 clause amended to the code's actual
condition: the tag contains the note's first space-separated word, or
*some* space-separated word of the note contains the tag. -/
def claimedTagRelevanceAmended (content tag : String) : ℚ :=
  let contentLower := lowerStr content.toList
  let tagLower := lowerStr tag.toList
  let a : ℚ := if isInfixL tagLower contentLower then 0.8 else 0
  let spaceWords := splitOnChar ' ' contentLower
  let firstWord := spaceWords.headD []
  let b : ℚ :=
    if isInfixL firstWord tagLower ||
        spaceWords.any (fun w => isInfixL tagLower w) then 0.4 else 0
  let c : ℚ :=
    0.6 * (exactTokenMatches (wordTokens contentLower) (wordTokens tagLower) : ℚ) +
    0.3 * (prefixTokenMatches (wordTokens contentLower) (wordTokens tagLower) : ℚ)
  let d : ℚ := 0.4 * (getContextMatches contentLower tagLower : ℚ)
  ratMin 1 (a + b + c + d)

/-- One row of the nested scoring loop equals 0.6 per exact match plus
0.3 per non-exact prefix match against that content word. -/
theorem sum_pairScore_row (cw : List Char) (tws : List (List Char)) :
    (tws.map (fun tw => pairScore cw tw)).sum =
      0.6 * (tws.countP (fun tw => decide (cw = tw)) : ℚ) +
      0.3 * (tws.countP
        (fun tw => !(decide (cw = tw)) &&
          (isPrefixL (tw.take 3) cw || isPrefixL (cw.take 3) tw)) : ℚ) := by
  induction tws with
  | nil => simp
  | cons tw tws ih =>
    simp only [List.map_cons, List.sum_cons, List.countP_cons, ih]
    by_cases h1 : cw = tw
    · simp only [pairScore, h1, if_pos rfl]
      simp [h1]
      ring
    · by_cases h2 : (isPrefixL (tw.take 3) cw || isPrefixL (cw.take 3) tw) = true
      · simp only [pairScore]
        rw [if_neg h1]
        simp [h1, h2]
        ring
      · simp only [pairScore]
        rw [if_neg h1]
        simp [h1, h2]

/-- The nested scoring loop equals 0.6 per exact plus 0.3 per prefix
token match over all pairs. -/
theorem sum_pairScore (cws tws : List (List Char)) :
    (cws.map (fun cw => (tws.map (fun tw => pairScore cw tw)).sum)).sum =
      0.6 * (exactTokenMatches cws tws : ℚ) +
      0.3 * (prefixTokenMatches cws tws : ℚ) := by
  induction cws with
  | nil => simp [exactTokenMatches, prefixTokenMatches]
  | cons cw cws ih =>
    simp only [exactTokenMatches, prefixTokenMatches, List.map_cons, List.sum_cons] at ih ⊢
    rw [sum_pairScore_row, ih]
    push_cast
    ring

unseal Rat.add Rat.mul Rat.ofScientific Rat.inv Rat.sub in
/-- C7 counterexample: on note `"zz ab"` and tag `"ab"`, the code's
score is 1 (substring hit 0.8 plus 0.4 because the second word `"ab"`
contains the tag, capped at 1), while the claim's formula — whose 0.4
clause looks only at the note's first word `"zz"` — gives 0.8. -/
theorem calculateTagRelevance_firstword_counterexample :
    calculateTagRelevance ("zz ab") "ab" = 1 ∧
    claimedTagRelevance ("zz ab") "ab" = 0.8 ∧
    calculateTagRelevance ("zz ab") "ab" ≠ claimedTagRelevance ("zz ab") "ab" := by
  exact ⟨by decide, by decide, by decide⟩

/-- C7 amended: for every note content and candidate tag, the code's
local relevance score equals `min(1.0, s)` where `s` sums (a) 0.8 for a
substring hit, (b) 0.4 when the tag contains the note's first
space-separated word or some space-separated word of the note contains
the tag, (c) 0.6 per exact and 0.3 per non-exact 3-character-prefix
token match, (d) 0.4 per context-table keyword hit keyed by the
lowercased tag name itself. -/
theorem calculateTagRelevance_spec (content tag : String) :
    calculateTagRelevance content tag = claimedTagRelevanceAmended content tag := by
  simp only [calculateTagRelevance, claimedTagRelevanceAmended]
  rw [sum_pairScore, ratMin_comm]
  congr 1
  ring

/-- C10 witness: the dichotomy applied at a concrete two-sentence
note. -/
theorem parseNote_split_or_whole_witness :
    (hfParseNote true ("hello there my friend. see everyone soon tomorrow.") =
        hfSentences ("hello there my friend. see everyone soon tomorrow.") ∧
      2 ≤ (hfSentences ("hello there my friend. see everyone soon tomorrow.")).length ∧
      ∀ s ∈ hfSentences ("hello there my friend. see everyone soon tomorrow."),
        10 < s.length ∧ s.toList.any Char.isAlpha = true) ∨
    hfParseNote true ("hello there my friend. see everyone soon tomorrow.") =
      [jsTrim ("hello there my friend. see everyone soon tomorrow.")] :=
  parseNote_split_or_whole true ("hello there my friend. see everyone soon tomorrow.")
